import Mathlib

/-!
Shallow embedding of the thira sync agent (src/main.py) and verification of
the specification claims about its sync-state and reconciliation logic.

Conventions of the embedding:
* The durable state file is modelled by its parse status: absent, unparseable
  (missing or malformed JSON), or a well-formed record with the two fields the
  program writes.
* The in-memory Python set `self.synced_tickets` is a `Finset String`.
* Whether an individual write to the state file succeeds is an explicit
  boolean input (`wOk`); the IOError branch of `_save_state` leaves the file
  unchanged and keeps the in-memory state.
* External collaborators (JIRA, Things3) enter only through their observable
  data: the fetched ticket list, and a per-ticket outcome of the Things3
  `add_todo` call (returns True, returns False, or raises an exception).
-/

namespace Thira

/-- Content of the durable state file, as `_load_state` distinguishes it:
missing, present but not parseable as the expected JSON, or a record with
fields `synced_tickets` and `last_sync`. The program serialises the set as
`list(self.synced_tickets)` whose order Python leaves unspecified, and every
reader either rebuilds a set or takes the length, so the record carries the
set itself. -/
inductive FileState
  | absent
  | unparseable
  | record (synced_tickets : Finset String) (last_sync : String)
deriving DecidableEq

/-- In-memory state of `StateManager`: the Python set `self.synced_tickets`
together with the current content of the durable state file (the embedding
carries the file content where the Python object carries the file path). -/
structure StateManager where
  synced_tickets : Finset String
  stateFile : FileState
deriving DecidableEq

/-- The set returned by `StateManager._load_state` (src/main.py lines 40-55):
a parseable record yields `set(data.get("synced_tickets", []))`; a missing or
unparseable file yields the empty set after printing a warning. -/
def load_state : FileState → Finset String
  | .record ids _ => ids
  | _ => ∅

/-- `StateManager._save_state` (lines 57-67): on a successful write the whole
file is rewritten with the full current set and the current timestamp; on an
IOError only a warning is printed and the previous file content stands. -/
def save_state (st : StateManager) (now : String) (wOk : Bool) : StateManager :=
  if wOk then { st with stateFile := .record st.synced_tickets now }
  else st

/-- `StateManager.is_ticket_synced` (lines 69-71): membership in the
in-memory set. -/
def is_ticket_synced (st : StateManager) (ticket_key : String) : Bool :=
  ticket_key ∈ st.synced_tickets

/-- `StateManager.mark_ticket_synced` (lines 73-76): add to the in-memory set,
then rewrite the durable file. -/
def mark_ticket_synced (st : StateManager) (ticket_key now : String) (wOk : Bool) :
    StateManager :=
  save_state { st with synced_tickets := insert ticket_key st.synced_tickets } now wOk

/-- `StateManager.remove_ticket` (lines 78-81): discard from the in-memory
set, then rewrite the durable file. -/
def remove_ticket (st : StateManager) (ticket_key now : String) (wOk : Bool) :
    StateManager :=
  save_state { st with synced_tickets := st.synced_tickets.erase ticket_key } now wOk

/-- The dictionary built by `get_sync_stats` when the file parses. -/
structure SyncStats where
  total_synced : Nat
  last_sync : String
  synced_tickets : Finset String
deriving DecidableEq

/-- `StateManager.get_sync_stats` (lines 83-98): re-reads the durable file
independently of the in-memory set; a missing or unparseable file leaves
`state_info` as the empty dictionary, modelled as `none`. -/
def get_sync_stats : FileState → Option SyncStats
  | .record ids ls => some ⟨ids.card, ls, ids⟩
  | _ => none

/-- How callers of `get_sync_stats` read the total: every consumer in
src/main.py (lines 296, 360, 366) uses the dictionary access
`stats.get("total_synced", 0)`, defaulting to 0 when the key is missing. -/
def reported_total_synced (fs : FileState) : Nat :=
  (get_sync_stats fs).elim 0 SyncStats.total_synced

/-- A ledger as `StateManager.__init__` builds it from a given file:
the in-memory set is loaded from the file content. -/
def initManager (fs : FileState) : StateManager :=
  { synced_tickets := load_state fs, stateFile := fs }

/-- Marking a list of tickets in sequence, every durable write succeeding. -/
def markAll (st : StateManager) (keys : List String) (now : String) : StateManager :=
  keys.foldl (fun s k => mark_ticket_synced s k now true) st

/-- A JIRA issue as the core reads it: key, summary, permalink, and the two
optionally-present fields the notes formatter probes with `hasattr`
(`reporter.displayName` and `description`). `none` means the attribute is
absent. -/
structure Ticket where
  key : String
  summary : String
  permalink : String
  reporter : Option String
  description : Option String
deriving DecidableEq

/-- Semantics of Python's `"\n".join`, used by `format_ticket_notes`. -/
def joinLines : List String → String
  | [] => ""
  | [s] => s
  | s :: rest => s ++ "\n" ++ joinLines rest

/-- `JiraManager.format_ticket_name` (lines 234-236). -/
def format_ticket_name (t : Ticket) : String :=
  "[" ++ t.key ++ "] " ++ t.summary

/-- `JiraManager.format_ticket_notes` (lines 238-257): builds `notes_parts`
in order and joins with newlines; the description is truncated to its first
500 characters plus an ellipsis when it is truthy and longer than 500. -/
def format_ticket_notes (t : Ticket) : String :=
  let parts := ["**Ticket** " ++ t.key, "**URL** " ++ t.permalink]
  let parts := match t.reporter with
    | some name => parts ++ ["**Reporter** " ++ name]
    | none => parts
  let parts := match t.description with
    | some d =>
      let d := if d ≠ "" ∧ 500 < d.length then d.take 500 ++ "..." else d
      parts ++ ["\n**Description**\n" ++ d]
    | none => parts
  joinLines parts

/-- The notes template exactly as the specification words it: a ticket line,
a URL line, a reporter line when a reporter is present, then a blank line and
a description heading followed by the body, truncated to 500 characters with
a trailing ellipsis when longer. Stated from the spec for comparison with
`format_ticket_notes`. -/
def specTicketNotes (t : Ticket) : String :=
  "**Ticket** " ++ t.key ++ "\n" ++ "**URL** " ++ t.permalink
    ++ (match t.reporter with
        | some name => "\n**Reporter** " ++ name
        | none => "")
    ++ (match t.description with
        | some d =>
          "\n\n**Description**\n" ++ (if 500 < d.length then d.take 500 ++ "..." else d)
        | none => "")

/-- Outcome of one `Things3Manager.add_todo` call as `sync_tickets` observes
it: returns True, returns False (the CalledProcessError text was printed by
`add_todo` itself), or raises out of the call. -/
inductive SinkOutcome
  | success
  | failure (reason : String)
  | raises (reason : String)
deriving DecidableEq

/-- The spec's per-ticket classification. -/
inductive SyncDecision
  | create
  | skip
  | update
deriving DecidableEq

/-- The per-ticket decision as src/main.py computes it: line 316 keeps a
ticket for syncing when `force_resync or update_existing or not synced`,
line 339 labels a kept ticket "Updated" exactly when
`update_existing and is_ticket_synced`. -/
def syncDecision (force_resync update_existing synced : Bool) : SyncDecision :=
  if force_resync || update_existing || !synced then
    if update_existing && synced then .update else .create
  else .skip

/-- Accumulated observables of the per-ticket loop of `sync_tickets`
(lines 336-355): final ledger, the tickets passed to the Sink in order, the
keys passed to `mark_ticket_synced` in order, the `(action, key)` pairs
printed on success, the `synced_count`, and the recorded failures as
`(key, reason)` pairs in order. -/
structure LoopResult where
  state : StateManager
  sinkCalls : List Ticket
  markCalls : List String
  successLabels : List (String × String)
  syncedCount : Nat
  failures : List (String × String)
deriving DecidableEq

/-- The `for issue in tickets_to_sync` loop (lines 336-355): compute the
action label from the current ledger, call the Sink; on success mark the
ticket synced and count it, on a False return or an exception record the
failure and continue with the next ticket. -/
def syncLoop (update_existing : Bool) (now : String) (wOk : Bool)
    (st : StateManager) : List (Ticket × SinkOutcome) → LoopResult
  | [] => ⟨st, [], [], [], 0, []⟩
  | (issue, out) :: rest =>
    let action := if update_existing && is_ticket_synced st issue.key
      then "Updated" else "Synced"
    match out with
    | .success =>
      let st' := mark_ticket_synced st issue.key now wOk
      let r := syncLoop update_existing now wOk st' rest
      ⟨r.state, issue :: r.sinkCalls, issue.key :: r.markCalls,
        (action, issue.key) :: r.successLabels, r.syncedCount + 1, r.failures⟩
    | .failure reason =>
      let r := syncLoop update_existing now wOk st rest
      ⟨r.state, issue :: r.sinkCalls, r.markCalls, r.successLabels,
        r.syncedCount, (issue.key, reason) :: r.failures⟩
    | .raises reason =>
      let r := syncLoop update_existing now wOk st rest
      ⟨r.state, issue :: r.sinkCalls, r.markCalls, r.successLabels,
        r.syncedCount, (issue.key, reason) :: r.failures⟩

/-- The aggregate a run reports: total fetched, skipped, synced and failed
counts plus the failures with their reasons. -/
structure SyncRunResult where
  fetched : Nat
  skipped : Nat
  synced : Nat
  failed : Nat
  failures : List (String × String)
deriving DecidableEq

/-- Everything one `sync_tickets` run produces. -/
structure RunOutput where
  state : StateManager
  sinkCalls : List Ticket
  markCalls : List String
  successLabels : List (String × String)
  result : SyncRunResult
deriving DecidableEq

/-- `Thira.sync_tickets` (lines 274-360), with the fetch already performed:
`issues` is the sequence the Ticket Source returned, each paired with the
outcome its Sink call would have. An empty fetch returns immediately
(line 305); otherwise line 316 filters `tickets_to_sync` against the ledger
loaded at start, counting the rest as skipped; an empty remainder returns
after reporting the skips (line 324); otherwise the loop runs and the counts
are reported (lines 336-357). -/
def sync_tickets (st : StateManager) (issues : List (Ticket × SinkOutcome))
    (force_resync update_existing : Bool) (now : String) (wOk : Bool) : RunOutput :=
  match issues with
  | [] => ⟨st, [], [], [], ⟨0, 0, 0, 0, []⟩⟩
  | _ :: _ =>
    let tickets_to_sync := issues.filter fun p =>
      force_resync || update_existing || !(is_ticket_synced st p.1.key)
    let skipped_count := issues.length - tickets_to_sync.length
    if tickets_to_sync.isEmpty then
      ⟨st, [], [], [], ⟨issues.length, skipped_count, 0, 0, []⟩⟩
    else
      let r := syncLoop update_existing now wOk st tickets_to_sync
      ⟨r.state, r.sinkCalls, r.markCalls, r.successLabels,
        ⟨issues.length, skipped_count, r.syncedCount, r.failures.length, r.failures⟩⟩

/-! Helper lemmas about the per-ticket loop. -/

theorem markAll_synced (keys : List String) (now : String) :
    ∀ st : StateManager, (markAll st keys now).synced_tickets =
      st.synced_tickets ∪ keys.toFinset := by
  induction keys with
  | nil => intro st; simp [markAll]
  | cons k rest ih =>
    intro st
    simp only [markAll, List.foldl_cons] at *
    rw [ih]
    simp [mark_ticket_synced, save_state, List.toFinset_cons, Finset.union_insert,
      Finset.insert_union]

theorem markAll_load (keys : List String) (now : String) :
    ∀ st : StateManager, load_state st.stateFile = st.synced_tickets →
      load_state (markAll st keys now).stateFile = (markAll st keys now).synced_tickets := by
  induction keys with
  | nil => intro st h; simpa [markAll] using h
  | cons k rest ih =>
    intro st _
    simp only [markAll, List.foldl_cons] at *
    apply ih
    simp [mark_ticket_synced, save_state, load_state]


theorem syncLoop_sinkCalls (u : Bool) (now : String) (wOk : Bool)
    (ts : List (Ticket × SinkOutcome)) :
    ∀ st, (syncLoop u now wOk st ts).sinkCalls = ts.map Prod.fst := by
  induction ts with
  | nil => intro st; rfl
  | cons p rest ih =>
    intro st
    obtain ⟨issue, out⟩ := p
    cases out <;> simp [syncLoop, ih]

theorem syncLoop_markCalls (u : Bool) (now : String) (wOk : Bool)
    (ts : List (Ticket × SinkOutcome)) :
    ∀ st, (syncLoop u now wOk st ts).markCalls =
      (ts.filter fun p => decide (p.2 = SinkOutcome.success)).map fun p => p.1.key := by
  induction ts with
  | nil => intro st; rfl
  | cons p rest ih =>
    intro st
    obtain ⟨issue, out⟩ := p
    cases out <;> simp [syncLoop, ih]

theorem syncLoop_failures (u : Bool) (now : String) (wOk : Bool)
    (ts : List (Ticket × SinkOutcome)) :
    ∀ st, (syncLoop u now wOk st ts).failures =
      ts.filterMap fun p => match p.2 with
        | SinkOutcome.success => none
        | SinkOutcome.failure reason => some (p.1.key, reason)
        | SinkOutcome.raises reason => some (p.1.key, reason) := by
  induction ts with
  | nil => intro st; rfl
  | cons p rest ih =>
    intro st
    obtain ⟨issue, out⟩ := p
    cases out <;> simp [syncLoop, ih]

theorem syncLoop_syncedCount (u : Bool) (now : String) (wOk : Bool)
    (ts : List (Ticket × SinkOutcome)) :
    ∀ st, (syncLoop u now wOk st ts).syncedCount =
      (ts.filter fun p => decide (p.2 = SinkOutcome.success)).length := by
  induction ts with
  | nil => intro st; rfl
  | cons p rest ih =>
    intro st
    obtain ⟨issue, out⟩ := p
    cases out <;> simp [syncLoop, ih]

theorem syncLoop_count_split (u : Bool) (now : String) (wOk : Bool)
    (ts : List (Ticket × SinkOutcome)) :
    ∀ st, (syncLoop u now wOk st ts).syncedCount +
      (syncLoop u now wOk st ts).failures.length = ts.length := by
  induction ts with
  | nil => intro st; rfl
  | cons p rest ih =>
    intro st
    obtain ⟨issue, out⟩ := p
    cases out with
    | success =>
      have h := ih (mark_ticket_synced st issue.key now wOk)
      simp only [syncLoop, List.length_cons]
      omega
    | failure reason =>
      have h := ih st
      simp only [syncLoop, List.length_cons]
      omega
    | raises reason =>
      have h := ih st
      simp only [syncLoop, List.length_cons]
      omega

theorem syncLoop_mono (u : Bool) (now : String) (wOk : Bool)
    (ts : List (Ticket × SinkOutcome)) :
    ∀ st, st.synced_tickets ⊆ (syncLoop u now wOk st ts).state.synced_tickets := by
  induction ts with
  | nil => intro st; exact Finset.Subset.refl _
  | cons p rest ih =>
    intro st
    obtain ⟨issue, out⟩ := p
    cases out with
    | success =>
      refine Finset.Subset.trans ?_ (ih _)
      simp [mark_ticket_synced, save_state]
      intro a ha
      cases wOk <;> simp [Finset.mem_insert, ha]
    | failure reason => exact ih st
    | raises reason => exact ih st

theorem syncLoop_success_mem (u : Bool) (now : String) (wOk : Bool)
    (ts : List (Ticket × SinkOutcome)) :
    ∀ st, ∀ p ∈ ts, p.2 = SinkOutcome.success →
      p.1.key ∈ (syncLoop u now wOk st ts).state.synced_tickets := by
  induction ts with
  | nil => intro st p hp; exact absurd hp (List.not_mem_nil p)
  | cons q rest ih =>
    intro st p hp hsucc
    obtain ⟨issue, out⟩ := q
    rcases List.mem_cons.mp hp with heq | hmem
    · subst heq
      simp only at hsucc
      subst hsucc
      simp only [syncLoop]
      apply syncLoop_mono
      cases wOk <;> simp [mark_ticket_synced, save_state]
    · cases out <;> simpa [syncLoop] using ih _ p hmem hsucc

theorem mark_synced_tickets (st : StateManager) (k now : String) (wOk : Bool) :
    (mark_ticket_synced st k now wOk).synced_tickets = insert k st.synced_tickets := by
  cases wOk <;> simp [mark_ticket_synced, save_state]

theorem syncLoop_synced_set (u : Bool) (now : String) (wOk : Bool)
    (ts : List (Ticket × SinkOutcome)) :
    ∀ st, (syncLoop u now wOk st ts).state.synced_tickets =
      st.synced_tickets ∪
        ((ts.filter fun p => decide (p.2 = SinkOutcome.success)).map
          fun p => p.1.key).toFinset := by
  induction ts with
  | nil => intro st; simp [syncLoop]
  | cons p rest ih =>
    intro st
    obtain ⟨issue, out⟩ := p
    cases out with
    | success =>
      simp only [syncLoop]
      rw [ih, mark_synced_tickets]
      simp [List.toFinset_cons, Finset.insert_union, Finset.union_insert]
    | failure reason => simpa [syncLoop] using ih st
    | raises reason => simpa [syncLoop] using ih st

theorem sync_tickets_eq (st : StateManager) (issues : List (Ticket × SinkOutcome))
    (f u : Bool) (now : String) (wOk : Bool) :
    sync_tickets st issues f u now wOk =
      (fun r ts => RunOutput.mk r.state r.sinkCalls r.markCalls r.successLabels
        ⟨issues.length, issues.length - ts.length, r.syncedCount,
          r.failures.length, r.failures⟩)
        (syncLoop u now wOk st
          (issues.filter fun p => f || u || !(is_ticket_synced st p.1.key)))
        (issues.filter fun p => f || u || !(is_ticket_synced st p.1.key)) := by
  cases issues with
  | nil => rfl
  | cons q qs =>
    simp only [sync_tickets]
    split
    · rename_i hemp
      rw [List.isEmpty_iff] at hemp
      rw [hemp]
      simp [syncLoop]
    · rfl

theorem sync_tickets_all_skip (st : StateManager) (issues : List (Ticket × SinkOutcome))
    (now : String) (wOk : Bool)
    (h : ∀ p ∈ issues, is_ticket_synced st p.1.key = true) :
    sync_tickets st issues false false now wOk =
      ⟨st, [], [], [], ⟨issues.length, issues.length, 0, 0, []⟩⟩ := by
  rw [sync_tickets_eq]
  have hfil : (issues.filter fun p =>
      false || false || !(is_ticket_synced st p.1.key)) = [] := by
    rw [List.filter_eq_nil_iff]
    intro p hp
    simp [h p hp]
  rw [hfil]
  simp [syncLoop]

theorem sync_tickets_mem_after (st : StateManager) (issues : List (Ticket × SinkOutcome))
    (now : String) (wOk : Bool)
    (hsucc : ∀ p ∈ issues, p.2 = SinkOutcome.success) :
    ∀ p ∈ issues, p.1.key ∈
      (sync_tickets st issues false false now wOk).state.synced_tickets := by
  intro p hp
  rw [sync_tickets_eq]
  by_cases hmem : p.1.key ∈ st.synced_tickets
  · exact syncLoop_mono _ _ _ _ _ hmem
  · apply syncLoop_success_mem _ _ _ _ _ p _ (hsucc p hp)
    rw [List.mem_filter]
    exact ⟨hp, by simp [is_ticket_synced, hmem]⟩

/-! Theorems for the specification claims. -/

/-- Claim C5 (counterexample): on a corrupt state file, `get_sync_stats`
returns the empty dictionary, not a record whose `total_synced` field is 0,
so the claim as stated fails at the unparseable file. -/
theorem stats_after_corrupt_counterexample :
    load_state FileState.unparseable = ∅ ∧
      get_sync_stats FileState.unparseable = none ∧
      ¬∃ s : SyncStats, get_sync_stats FileState.unparseable = some s ∧
        s.total_synced = 0 := by
  refine ⟨rfl, rfl, ?_⟩
  rintro ⟨s, hs, -⟩
  simp [get_sync_stats] at hs

/-- Claim C5 (amended): when the durable storage is corrupt or unparseable,
loading returns an empty ledger without raising (only a warning is printed),
and a subsequent `get_sync_stats` returns an empty record with no
`total_synced` field, which every consumer reads with a default of 0, so the
reported total is 0. -/
theorem load_corrupt_empty_stats_zero :
    load_state FileState.unparseable = ∅ ∧
      (initManager FileState.unparseable).synced_tickets = ∅ ∧
      get_sync_stats FileState.unparseable = none ∧
      reported_total_synced FileState.unparseable = 0 := by
  refine ⟨rfl, ?_, rfl, rfl⟩
  rfl

/-- Claim C6: for every ticket the notes string is built in the fixed order
of the spec template — ticket line, URL line, reporter line when a reporter
is present, then a blank line and a description heading followed by the body
when a description is present, the body truncated to its first 500
characters plus a trailing ellipsis when longer than 500 characters. -/
theorem format_ticket_notes_matches_spec (t : Ticket) :
    format_ticket_notes t = specTicketNotes t := by
  obtain ⟨k, s, u, rep, desc⟩ := t
  have hne : ∀ d : String, 500 < d.length → d ≠ "" := by
    intro d hd he
    subst he
    simp at hd
  cases rep with
  | none =>
    cases desc with
    | none =>
      apply String.ext
      simp [format_ticket_notes, specTicketNotes, joinLines, String.data_append]
    | some d =>
      by_cases h : 500 < d.length
      · apply String.ext
        simp [format_ticket_notes, specTicketNotes, joinLines, String.data_append,
          h, hne d h]
      · apply String.ext
        simp [format_ticket_notes, specTicketNotes, joinLines, String.data_append, h]
  | some name =>
    cases desc with
    | none =>
      apply String.ext
      simp [format_ticket_notes, specTicketNotes, joinLines, String.data_append]
    | some d =>
      by_cases h : 500 < d.length
      · apply String.ext
        simp [format_ticket_notes, specTicketNotes, joinLines, String.data_append,
          h, hne d h]
      · apply String.ext
        simp [format_ticket_notes, specTicketNotes, joinLines, String.data_append, h]

/-- Claim C7: `mark_ticket_synced` adds the id to the in-memory set; when the
write succeeds the entire state is durably rewritten as a full snapshot
carrying the current timestamp; when the write fails the file is untouched
but the in-memory addition stands, so `is_ticket_synced` holds for the
remainder of the run either way. -/
theorem mark_ticket_synced_spec (st : StateManager) (k now : String) (wOk : Bool) :
    (mark_ticket_synced st k now wOk).synced_tickets = insert k st.synced_tickets ∧
      is_ticket_synced (mark_ticket_synced st k now wOk) k = true ∧
      (mark_ticket_synced st k now wOk).stateFile =
        (if wOk then FileState.record (insert k st.synced_tickets) now
         else st.stateFile) := by
  cases wOk <;> simp [mark_ticket_synced, save_state, is_ticket_synced]

/-- Claim C8: persistence round-trip — after any sequence of successful
`mark_ticket_synced` calls starting from an empty ledger, discarding the
in-memory state and reloading from the durable file yields exactly the set
of marked ids; in particular marking "A" then "B" reloads as the set
containing "A" and "B". -/
theorem mark_synced_roundtrip (keys : List String) (now : String) :
    (initManager (markAll ⟨∅, FileState.absent⟩ keys now).stateFile).synced_tickets =
        keys.toFinset ∧
      (initManager (markAll ⟨∅, FileState.absent⟩ ["A", "B"] now).stateFile).synced_tickets =
        ({"A", "B"} : Finset String) := by
  have hgen : ∀ ks : List String,
      (initManager (markAll ⟨∅, FileState.absent⟩ ks now).stateFile).synced_tickets =
        ks.toFinset := by
    intro ks
    have h := markAll_load ks now ⟨∅, FileState.absent⟩ (by simp [load_state])
    have h2 := markAll_synced ks now (⟨∅, FileState.absent⟩ : StateManager)
    simp only [initManager]
    rw [h, h2]
    simp
  refine ⟨hgen keys, ?_⟩
  rw [hgen ["A", "B"]]
  rfl

/-- Claim C10: frame property of ledger mutations — for distinct ids
marking or removing one id never changes membership of the other, and
marking an already-present id leaves the membership set unchanged. -/
theorem ledger_frame_property (st : StateManager) (x y now : String) (wOk : Bool)
    (hxy : x ≠ y) :
    is_ticket_synced (mark_ticket_synced st x now wOk) y = is_ticket_synced st y ∧
      is_ticket_synced (remove_ticket st x now wOk) y = is_ticket_synced st y ∧
      (x ∈ st.synced_tickets →
        (mark_ticket_synced st x now wOk).synced_tickets = st.synced_tickets) := by
  refine ⟨?_, ?_, ?_⟩
  · cases wOk <;>
      simp [mark_ticket_synced, save_state, is_ticket_synced, Finset.mem_insert,
        Ne.symm hxy]
  · cases wOk <;>
      simp [remove_ticket, save_state, is_ticket_synced, Finset.mem_erase,
        Ne.symm hxy]
  · intro hx
    cases wOk <;>
      simp [mark_ticket_synced, save_state, Finset.insert_eq_self.mpr hx]

/-- Claim C10 witness at the concrete ledger containing "a". -/
theorem ledger_frame_property_witness :
    ("a" : String) ≠ "b" ∧
      (is_ticket_synced (mark_ticket_synced ⟨{"a"}, FileState.absent⟩ "a" "t" true) "b" =
        is_ticket_synced ⟨{"a"}, FileState.absent⟩ "b") ∧
      (mark_ticket_synced ⟨{"a"}, FileState.absent⟩ "a" "t" true).synced_tickets =
        ({"a"} : Finset String) :=
  ⟨by decide,
    (ledger_frame_property ⟨{"a"}, FileState.absent⟩ "a" "b" "t" true (by decide)).1,
    (ledger_frame_property ⟨{"a"}, FileState.absent⟩ "a" "b" "t" true (by decide)).2.2
      (by decide)⟩

/-- Claim C1: idempotence of a sync pass — if a run with `force_resync` and
`update_existing` both false completes with every Sink call succeeding, a
second run over the same ticket sequence with no intervening state change
skips every ticket and invokes the Sink zero times, synchronizing zero
tickets. -/
theorem sync_idempotent_second_run (st : StateManager)
    (issues : List (Ticket × SinkOutcome)) (now now2 : String) (wOk wOk2 : Bool)
    (hsucc : ∀ p ∈ issues, p.2 = SinkOutcome.success) :
    sync_tickets (sync_tickets st issues false false now wOk).state issues
        false false now2 wOk2 =
      ⟨(sync_tickets st issues false false now wOk).state, [], [], [],
        ⟨issues.length, issues.length, 0, 0, []⟩⟩ := by
  apply sync_tickets_all_skip
  intro p hp
  simp only [is_ticket_synced, decide_eq_true_eq]
  exact sync_tickets_mem_after st issues now wOk hsucc p hp

/-- Claim C1 witness: one fresh ticket synced successfully, then the same
fetch again. -/
theorem sync_idempotent_second_run_witness :
    (∀ p ∈ [((⟨"K1", "s", "u", none, none⟩ : Ticket), SinkOutcome.success)],
        p.2 = SinkOutcome.success) ∧
      sync_tickets
          (sync_tickets ⟨∅, FileState.absent⟩
            [(⟨"K1", "s", "u", none, none⟩, SinkOutcome.success)]
            false false "t1" true).state
          [(⟨"K1", "s", "u", none, none⟩, SinkOutcome.success)] false false "t2" true =
        ⟨(sync_tickets ⟨∅, FileState.absent⟩
            [(⟨"K1", "s", "u", none, none⟩, SinkOutcome.success)]
            false false "t1" true).state,
          [], [], [], ⟨1, 1, 0, 0, []⟩⟩ :=
  ⟨by decide,
    sync_idempotent_second_run ⟨∅, FileState.absent⟩
      [(⟨"K1", "s", "u", none, none⟩, SinkOutcome.success)] "t1" "t2" true true
      (by decide)⟩

/-- Claim C2 (counterexample): with `force_resync = true` and
`update_existing = true` on an already-synced ticket the code's decision is
Update, not the Create the claim requires when `force_resync` is true; the
run prints the "Updated" label for exactly this input. -/
theorem syncDecision_force_update_counterexample :
    syncDecision true true true = SyncDecision.update ∧
      SyncDecision.update ≠ SyncDecision.create ∧
      (sync_tickets ⟨{"X"}, FileState.absent⟩
          [(⟨"X", "s", "u", none, none⟩, SinkOutcome.success)]
          true true "t" true).successLabels = [("Updated", "X")] := by
  decide

/-- Claim C2 (amended): the per-ticket decision is a pure function of the
ticket identifier's ledger membership and the two flags; it is Update
whenever `update_existing` is true and the id is synced (even when
`force_resync` is also true), otherwise Create when `force_resync` is true
or the id is not synced, and Skip otherwise. -/
theorem syncDecision_characterisation :
    ∀ force_resync update_existing synced : Bool,
      syncDecision force_resync update_existing synced =
        (if update_existing && synced then SyncDecision.update
         else if force_resync || !synced then SyncDecision.create
         else SyncDecision.skip) := by
  decide

/-- Claim C3: per-ticket failures are isolated — in a fetch of three fresh
tickets where the second Sink call fails and the first and third succeed,
the run reports fetched 3, skipped 0, synced 2, failed 1 with the failing
id and reason recorded, only the first and third keys are passed to
`mark_ticket_synced`, and the ledger afterwards contains exactly those two
keys. -/
theorem sync_failure_isolated (fs : FileState) (t1 t2 t3 : Ticket)
    (reason now : String) (wOk : Bool)
    (h21 : t2.key ≠ t1.key) (h23 : t2.key ≠ t3.key) :
    ((sync_tickets ⟨∅, fs⟩
        [(t1, SinkOutcome.success), (t2, SinkOutcome.failure reason),
          (t3, SinkOutcome.success)] false false now wOk).result =
      ⟨3, 0, 2, 1, [(t2.key, reason)]⟩) ∧
      ((sync_tickets ⟨∅, fs⟩
        [(t1, SinkOutcome.success), (t2, SinkOutcome.failure reason),
          (t3, SinkOutcome.success)] false false now wOk).markCalls =
        [t1.key, t3.key]) ∧
      ((sync_tickets ⟨∅, fs⟩
        [(t1, SinkOutcome.success), (t2, SinkOutcome.failure reason),
          (t3, SinkOutcome.success)] false false now wOk).state.synced_tickets =
        {t1.key, t3.key}) ∧
      t2.key ∉ (sync_tickets ⟨∅, fs⟩
        [(t1, SinkOutcome.success), (t2, SinkOutcome.failure reason),
          (t3, SinkOutcome.success)] false false now wOk).state.synced_tickets := by
  have hfil : ([(t1, SinkOutcome.success), (t2, SinkOutcome.failure reason),
      (t3, SinkOutcome.success)].filter fun p =>
        false || false || !(is_ticket_synced (⟨∅, fs⟩ : StateManager) p.1.key)) =
      [(t1, SinkOutcome.success), (t2, SinkOutcome.failure reason),
        (t3, SinkOutcome.success)] := by
    simp [is_ticket_synced]
  rw [sync_tickets_eq]
  simp only [hfil, syncLoop_sinkCalls, syncLoop_markCalls, syncLoop_failures,
    syncLoop_syncedCount, syncLoop_synced_set, List.length_cons, List.length_nil]
  refine ⟨?_, ?_, ?_, ?_⟩
  · simp
  · simp
  · simp
  · simp [Finset.mem_insert, h21, h23]

/-- Claim C3 witness at three concrete tickets. -/
theorem sync_failure_isolated_witness :
    ("K2" : String) ≠ "K1" ∧ ("K2" : String) ≠ "K3" ∧
      ((sync_tickets ⟨∅, FileState.absent⟩
          [((⟨"K1", "s", "u", none, none⟩ : Ticket), SinkOutcome.success),
            (⟨"K2", "s", "u", none, none⟩, SinkOutcome.failure "boom"),
            (⟨"K3", "s", "u", none, none⟩, SinkOutcome.success)]
          false false "t" true).result = ⟨3, 0, 2, 1, [("K2", "boom")]⟩) ∧
      ((sync_tickets ⟨∅, FileState.absent⟩
          [((⟨"K1", "s", "u", none, none⟩ : Ticket), SinkOutcome.success),
            (⟨"K2", "s", "u", none, none⟩, SinkOutcome.failure "boom"),
            (⟨"K3", "s", "u", none, none⟩, SinkOutcome.success)]
          false false "t" true).state.synced_tickets = {"K1", "K3"}) :=
  ⟨by decide, by decide,
    (sync_failure_isolated FileState.absent ⟨"K1", "s", "u", none, none⟩
      ⟨"K2", "s", "u", none, none⟩ ⟨"K3", "s", "u", none, none⟩ "boom" "t" true
      (by decide) (by decide)).1,
    (sync_failure_isolated FileState.absent ⟨"K1", "s", "u", none, none⟩
      ⟨"K2", "s", "u", none, none⟩ ⟨"K3", "s", "u", none, none⟩ "boom" "t" true
      (by decide) (by decide)).2.2.1⟩

/-- Claim C4: every run yields an aggregate result — the zero-ticket case
returns the all-zero aggregate rather than an error, the fetched count is
the length of the fetched sequence, the failed count is the length of the
recorded failures (each an identifier with its reason), and skipped, synced
and failed counts always partition the fetched count. -/
theorem sync_run_result_aggregate (st : StateManager)
    (issues : List (Ticket × SinkOutcome)) (f u : Bool) (now : String) (wOk : Bool) :
    ((sync_tickets st [] f u now wOk).result = ⟨0, 0, 0, 0, []⟩) ∧
      ((sync_tickets st issues f u now wOk).result.fetched = issues.length) ∧
      ((sync_tickets st issues f u now wOk).result.failed =
        (sync_tickets st issues f u now wOk).result.failures.length) ∧
      ((sync_tickets st issues f u now wOk).result.skipped +
          (sync_tickets st issues f u now wOk).result.synced +
          (sync_tickets st issues f u now wOk).result.failed = issues.length) := by
  refine ⟨rfl, by rw [sync_tickets_eq], by rw [sync_tickets_eq], ?_⟩
  have h1 := syncLoop_count_split u now wOk
    (issues.filter fun p => f || u || !(is_ticket_synced st p.1.key)) st
  have h2 := List.length_filter_le
    (fun p => f || u || !(is_ticket_synced st p.1.key)) issues
  rw [sync_tickets_eq]
  simp only []
  omega

/-- Claim C9: the sequence of Sink calls a run makes is exactly the fetched
sequence with the Skip-decided tickets removed, in the same relative order —
the run never reorders, sorts, or deduplicates tickets. -/
theorem sink_calls_in_fetch_order (st : StateManager)
    (issues : List (Ticket × SinkOutcome)) (f u : Bool) (now : String) (wOk : Bool) :
    (sync_tickets st issues f u now wOk).sinkCalls =
      (issues.filter fun p =>
        decide (syncDecision f u (is_ticket_synced st p.1.key) ≠
          SyncDecision.skip)).map Prod.fst := by
  rw [sync_tickets_eq]
  simp only [syncLoop_sinkCalls]
  congr 1
  apply List.filter_congr
  intro p hp
  cases f <;> cases u <;> cases hm : is_ticket_synced st p.1.key <;>
    simp [syncDecision, hm]

end Thira
